import Mathlib

/-!
Verification of the Grant-Finder eligibility matching engine.

This file gives a shallow embedding of the matcher core of the repository:
the `Grant` record and its derived `amount_display` string
(`sources/base_source.py`), the flattened eligibility-attribute snapshot of
the fixed company profile (`company_profile.py`, `get_eligibility_attributes`),
and the scoring / disqualification / ranking logic of `GrantMatcher`
(`matcher.py`).  Python floats are modelled as exact rationals (`ℚ`),
calendar dates as proleptic-Gregorian day ordinals (`ℤ`, matching
`date.toordinal()`), and "today" is passed explicitly.  Python truthiness of
optional numbers (`None` and `0` are both falsy) is modelled by the `truthyQ`
and `truthyZ` helpers.  `list.sort(key=...)` (a stable sort) is modelled by
`List.insertionSort` with the non-strict key order, which is stable.
-/

/-- Lower-casing of a string, character by character (models `str.lower()`
for the ASCII strings this code base handles). -/
def strLower (s : String) : String := ⟨s.data.map Char.toLower⟩

/-- Substring test: `pyIn needle hay` models the Python expression
`needle in hay` on strings. -/
def pyIn (needle hay : String) : Bool :=
  hay.data.tails.any (fun t => needle.data.isPrefixOf t)

/-- Models Python `s.startswith(pre)`. -/
def pyStartswith (s pre : String) : Bool :=
  pre.data.isPrefixOf s.data

/-- Python truthiness of an optional float: `None` and `0.0` are falsy. -/
def truthyQ : Option ℚ → Bool
  | none => false
  | some x => decide (x ≠ 0)

/-- Python truthiness of an optional int: `None` and `0` are falsy. -/
def truthyZ : Option ℤ → Bool
  | none => false
  | some n => decide (n ≠ 0)

/-- Groups a reversed digit list into blocks of three (for thousands
separators). -/
def chunk3 : List Char → List (List Char)
  | [] => []
  | [a] => [[a]]
  | [a, b] => [[a, b]]
  | a :: b :: c :: rest => [a, b, c] :: chunk3 rest

/-- Decimal digits of a natural number with `,` thousands separators,
as produced by Python's `,` format flag. -/
def commaGroup (n : ℕ) : String :=
  ⟨List.intercalate [','] (((chunk3 (Nat.toDigits 10 n).reverse).map List.reverse).reverse)⟩

/-- Integer rendered with thousands separators. -/
def intComma (n : ℤ) : String :=
  (if n < 0 then "-" else "") ++ commaGroup n.natAbs

/-- Models the Python format expression `f"${x:,.0f}"`: a dollar sign, then
the amount rounded to a whole number with thousands separators.  (Python
rounds halves to even; `round` rounds halves up — the two agree except at
exact half-dollar amounts, which never occur in the claims checked here.) -/
def fmtUSD (q : ℚ) : String := "$" ++ intComma (round q)

/-- Models `f"{x:.0f}"` (used for ownership percentages). -/
def fmtPct (q : ℚ) : String := toString (round q)

/-- Ordinal of `datetime.date.max` (9999-12-31), i.e. `date.max.toordinal()`. -/
def dateMax : ℤ := 3652059

/-- `MIN_ELIGIBILITY_SCORE` from `config.py`. -/
def MIN_ELIGIBILITY_SCORE : ℚ := 0.6

/-- The fields of a `Grant` record (`sources/base_source.py`) that are read
by the matcher and by `amount_display`.  Optional floats are `Option ℚ`,
optional ints `Option ℤ`, dates day ordinals. -/
structure Grant where
  id : String := ""
  source : String := ""
  source_url : String := ""
  title : String := ""
  description : String := ""
  funder : String := ""
  amount_min : Option ℚ := none
  amount_max : Option ℚ := none
  amount_description : String := ""
  deadline : Option ℤ := none
  eligibility_summary : String := ""
  eligible_locations : List String := []
  eligible_industries : List String := []
  requires_woman_owned : Bool := false
  requires_minority_owned : Bool := false
  requires_veteran_owned : Bool := false
  max_revenue : Option ℚ := none
  max_employees : Option ℤ := none
  min_years_in_business : Option ℤ := none
  required_certifications : List String := []

/-- Derived property `Grant.days_until_deadline`: days from `today` to the
deadline, `none` when there is no deadline. -/
def days_until_deadline (today : ℤ) (g : Grant) : Option ℤ :=
  g.deadline.map (fun d => d - today)

/-- Derived property `Grant.amount_display` (`base_source.py`).  The Python
code tests the optional amounts for truthiness (`if self.amount_min and
self.amount_max`), under which `None` and `0.0` behave identically, so the
values are collapsed with `getD 0` here. -/
def amount_display (g : Grant) : String :=
  let mn := g.amount_min.getD 0
  let mx := g.amount_max.getD 0
  if truthyQ g.amount_min && truthyQ g.amount_max then
    if mn = mx then fmtUSD mn
    else fmtUSD mn ++ " - " ++ fmtUSD mx
  else if truthyQ g.amount_max then "Up to " ++ fmtUSD mx
  else if truthyQ g.amount_min then "From " ++ fmtUSD mn
  else if !g.amount_description.data.isEmpty then g.amount_description
  else "Amount varies"

/-- The flattened attribute snapshot returned by
`company_profile.get_eligibility_attributes()`. -/
structure EligibilityAttrs where
  state : String
  city : String
  country : String
  employee_count : ℤ
  annual_revenue : ℚ
  woman_owned : Bool
  woman_owned_percentage : ℚ
  minority_owned : Bool
  minority_owned_percentage : ℚ
  veteran_owned : Bool
  naics_codes : List String
  certifications : List String
  years_in_business : ℤ

/-- Ordinal of the profile's founding date, `date(2024, 1, 1).toordinal()`. -/
def foundingOrdinal : ℤ := 738886

/-- `get_eligibility_attributes()` evaluated on the fixed `MARV_PROFILE`
(`company_profile.py`).  `woman_owned` is `woman_owned_percentage > 0`
(33.33 > 0, hence `true`), `minority_owned` is 33.34 > 0, hence `true`;
`years_in_business` is `(today - founding_date).days // 365` (Python `//`
is floor division, hence `Int.fdiv`). -/
def getEligibilityAttributes (today : ℤ) : EligibilityAttrs :=
  { state := "CA"
    city := "Sacramento"
    country := "United States"
    employee_count := 3
    annual_revenue := 100000
    woman_owned := true
    woman_owned_percentage := 33.33
    minority_owned := true
    minority_owned_percentage := 33.34
    veteran_owned := false
    naics_codes := ["541810", "541613", "541820", "561422"]
    certifications := []
    years_in_business := Int.fdiv (today - foundingOrdinal) 365 }

/-- Result of matching one grant (`MatchResult` in `matcher.py`). -/
structure MatchResult where
  grant : Grant
  score : ℚ
  reasons : List String
  warnings : List String
  disqualified : Bool
  disqualification_reason : String := ""

/-- `GrantMatcher._check_disqualifiers`.  Evaluates the five hard
disqualifiers in source order and returns the first hit.  Note that the
location condition tests `loc in locations_lower` (membership of each
lowered location in the lowered location list itself), exactly as the
Python source does. -/
def check_disqualifiers (attrs : EligibilityAttrs) (today : ℤ) (g : Grant) : Bool × String :=
  let missing := g.required_certifications.filter (fun c => !attrs.certifications.contains c)
  let locations_lower := g.eligible_locations.map strLower
  let our_locations := [strLower attrs.state, strLower attrs.city, strLower attrs.country,
    "california", "ca", "us", "usa", "united states"]
  if (match g.deadline with
      | some d => decide (d - today < 0)
      | none => false) then
    (true, "Deadline has passed")
  else if !g.required_certifications.isEmpty
      && ["8(a)", "HUBZone", "SDVOSB"].any (fun req => missing.contains req) then
    (true, "Requires certification: " ++ String.intercalate ", " missing)
  else if truthyQ g.max_revenue && decide (g.max_revenue.getD 0 < attrs.annual_revenue) then
    (true, "Revenue exceeds limit (" ++ fmtUSD (g.max_revenue.getD 0) ++ ")")
  else if truthyZ g.max_employees && decide (g.max_employees.getD 0 < attrs.employee_count) then
    (true, "Employee count exceeds limit (" ++ toString (g.max_employees.getD 0) ++ ")")
  else if !g.eligible_locations.isEmpty
      && !(locations_lower.any (fun loc =>
            locations_lower.contains loc || our_locations.any (fun our => pyIn our loc)))
      && !(pyIn "nationwide" (String.intercalate " " locations_lower)) then
    (true, "Location restricted to: " ++ String.intercalate ", " g.eligible_locations)
  else
    (false, "")

/-- `GrantMatcher._score_location`. -/
def score_location (g : Grant) : ℚ × List String :=
  if g.eligible_locations.isEmpty then (1, ["No location restrictions"])
  else
    let locations_lower := g.eligible_locations.map strLower
    if locations_lower.any (fun loc => pyIn "sacramento" loc || loc == "sacramento") then
      (1, ["Sacramento specifically eligible"])
    else if locations_lower.any (fun loc => pyIn "california" loc || loc == "ca") then
      (1, ["California specifically eligible"])
    else if locations_lower.any (fun loc =>
        ["nationwide", "us", "usa", "united states", "all states"].contains loc) then
      (0.9, ["Nationwide eligibility"])
    else (0.5, ["Location may be eligible - verify"])

/-- `GrantMatcher._score_size`.  Accumulates a multiplicative score and the
reason/warning lists, then clamps the score to at most 1. -/
def score_size (attrs : EligibilityAttrs) (g : Grant) : ℚ × List String × List String :=
  let s0 : ℚ := 1
  let revOk := decide (attrs.annual_revenue ≤ g.max_revenue.getD 0)
  let s1 := if truthyQ g.max_revenue && !revOk then s0 * 0 else s0
  let r1 := if truthyQ g.max_revenue && revOk then
      ["Revenue under " ++ fmtUSD (g.max_revenue.getD 0) ++ " limit"] else []
  let w1 := if truthyQ g.max_revenue && !revOk then ["Revenue may exceed limit"] else []
  let empOk := decide (attrs.employee_count ≤ g.max_employees.getD 0)
  let s2 := if truthyZ g.max_employees && !empOk then s1 * 0 else s1
  let r2 := r1 ++ (if truthyZ g.max_employees && empOk then
      ["Under " ++ toString (g.max_employees.getD 0) ++ " employee limit"] else [])
  let w2 := w1 ++ (if truthyZ g.max_employees && !empOk then
      ["Employee count may exceed limit"] else [])
  let micro := decide (attrs.annual_revenue < 100000)
  let s3 := if micro then s2 * 1.1 else s2
  let r3 := r2 ++ (if micro then ["Micro-business status (under $100k revenue)"] else [])
  let yrsOk := decide (g.min_years_in_business.getD 0 ≤ attrs.years_in_business)
  let s4 := if truthyZ g.min_years_in_business && !yrsOk then s3 * 0.5 else s3
  let r4 := r3 ++ (if truthyZ g.min_years_in_business && yrsOk then
      ["Meets " ++ toString (g.min_years_in_business.getD 0) ++ "+ years requirement"] else [])
  let w3 := w2 ++ (if truthyZ g.min_years_in_business && !yrsOk then
      ["May not meet " ++ toString (g.min_years_in_business.getD 0) ++ " year requirement"] else [])
  (min s4 1, r4, w3)

/-- `GrantMatcher._score_ownership`.  The three `return 0.0` early exits of
the Python code are the three leading guards; the remaining path accumulates
the base score, required-status upgrades, and the two bonus tenths, then
clamps to 1. -/
def score_ownership (attrs : EligibilityAttrs) (g : Grant) : ℚ × List String :=
  if g.requires_woman_owned && !attrs.woman_owned then
    (0, ["Requires woman-owned status"])
  else if g.requires_minority_owned && !attrs.minority_owned then
    (0, ["Requires minority-owned status"])
  else if g.requires_veteran_owned && !attrs.veteran_owned then
    (0, ["Requires veteran-owned status"])
  else
    let s0 : ℚ := 0.5
    let s1 := if g.requires_woman_owned then 1 else s0
    let r1 := if g.requires_woman_owned then
        ["Woman-owned (" ++ fmtPct attrs.woman_owned_percentage ++ "%)"] else []
    let s2 := if g.requires_minority_owned then 1 else s1
    let r2 := r1 ++ (if g.requires_minority_owned then
        ["Minority-owned (" ++ fmtPct attrs.minority_owned_percentage ++ "%)"] else [])
    let r3 := r2 ++ (if g.requires_veteran_owned then ["Veteran-owned"] else [])
    let bw := !g.requires_woman_owned && attrs.woman_owned
    let s3 := s2 + (if bw then 0.1 else 0)
    let r4 := r3 ++ (if bw then ["Woman-owned (bonus eligibility)"] else [])
    let bm := !g.requires_minority_owned && attrs.minority_owned
    let s4 := s3 + (if bm then 0.1 else 0)
    let r5 := r4 ++ (if bm then ["Minority-owned (bonus eligibility)"] else [])
    (min s4 1, r5)

/-- `GrantMatcher._score_industry`.  The nested Python loops returning at the
first matching NAICS code (resp. first matching keyword) are modelled with
`List.findSome?`; the iteration order of `set(naics_codes)` is modelled by
the original list order. -/
def score_industry (attrs : EligibilityAttrs) (g : Grant) : ℚ × List String :=
  if g.eligible_industries.isEmpty then (0.8, ["No industry restrictions"])
  else
    let inds_lower := g.eligible_industries.map strLower
    match attrs.naics_codes.findSome? (fun oc =>
        if g.eligible_industries.any (fun tc => pyStartswith oc tc || pyStartswith tc oc)
        then some oc else none) with
    | some oc => (1, ["NAICS code match: " ++ oc])
    | none =>
      match (["advertising", "marketing", "media", "consulting", "business services",
          "professional services", "small business", "technology"]).findSome? (fun kw =>
          if inds_lower.any (fun ind => pyIn kw ind) then some kw else none) with
      | some kw => (0.9, ["Industry keyword match: " ++ kw])
      | none =>
        if ["all", "any", "open", "general"].any (fun w =>
            pyIn w (String.intercalate " " inds_lower)) then
          (0.8, ["Open to all industries"])
        else (0.3, ["Industry alignment uncertain"])

/-- `GrantMatcher._score_certifications`.  `set(required)` iteration order is
modelled by first-occurrence order (`eraseDups`). -/
def score_certifications (attrs : EligibilityAttrs) (g : Grant) : ℚ × List String × List String :=
  if g.required_certifications.isEmpty then (1, ["No certifications required"], [])
  else
    let required := g.required_certifications.eraseDups
    if required.all (fun c => attrs.certifications.contains c) then
      (1, ["Have required certifications: " ++ String.intercalate ", " required], [])
    else
      let missing := required.filter (fun c => !attrs.certifications.contains c)
      let warnings := ["Missing certifications: " ++ String.intercalate ", " missing]
      if !g.eligibility_summary.data.isEmpty && pyIn "prefer" (strLower g.eligibility_summary) then
        (0.5, [], warnings)
      else (0, [], warnings)

/-- `GrantMatcher._score_deadline`. -/
def score_deadline (today : ℤ) (g : Grant) : ℚ :=
  match g.deadline with
  | none => 0.5
  | some d =>
    let days := d - today
    if days < 0 then 0
    else if days ≤ 7 then 1
    else if days ≤ 14 then 0.9
    else if days ≤ 30 then 0.8
    else if days ≤ 60 then 0.6
    else 0.4

/-- `GrantMatcher.match_grant`: disqualification short-circuit, then the six
weighted dimensions, normalized by the accumulated total weight. -/
def match_grant (attrs : EligibilityAttrs) (today : ℤ) (g : Grant) : MatchResult :=
  let dq := check_disqualifiers attrs today g
  if dq.1 then
    { grant := g, score := 0, reasons := [], warnings := [], disqualified := true,
      disqualification_reason := dq.2 }
  else
    let loc := score_location g
    let size := score_size attrs g
    let own := score_ownership attrs g
    let ind := score_industry attrs g
    let cert := score_certifications attrs g
    let dls := score_deadline today g
    let score := loc.1 * 0.20 + size.1 * 0.20 + own.1 * 0.25 + ind.1 * 0.15
      + cert.1 * 0.10 + dls * 0.10
    let max_score : ℚ := 0.20 + 0.20 + 0.25 + 0.15 + 0.10 + 0.10
    let reasons := loc.2 ++ size.2.1 ++ own.2 ++ ind.2 ++ cert.2.1
      ++ (if dls > 0.5 then
            ["Deadline in " ++ toString ((days_until_deadline today g).getD 0) ++ " days"]
          else [])
    let warnings := size.2.2 ++ cert.2.2
    let final_score := if max_score > 0 then score / max_score else 0
    { grant := g, score := final_score, reasons := reasons, warnings := warnings,
      disqualified := false }

/-- Sort key used by `match_all`: the deadline, with a missing deadline
replaced by `date.max` (so that it sorts last). -/
def dlKey (r : MatchResult) : ℤ := r.grant.deadline.getD dateMax

/-- The order underlying `results.sort(key=lambda r: (deadline-or-max,
-score))`: deadline ascending, then score descending. -/
def rankLe (a b : MatchResult) : Prop :=
  dlKey a < dlKey b ∨ (dlKey a = dlKey b ∧ b.score ≤ a.score)

instance : DecidableRel rankLe := fun a b => by
  unfold rankLe
  exact inferInstance

instance rankLe_trans : IsTrans MatchResult rankLe := by
  constructor
  intro a b c hab hbc
  rcases hab with h1 | ⟨e1, s1⟩
  · rcases hbc with h2 | ⟨e2, _⟩
    · exact Or.inl (lt_trans h1 h2)
    · exact Or.inl (e2 ▸ h1)
  · rcases hbc with h2 | ⟨e2, s2⟩
    · exact Or.inl (e1 ▸ h2)
    · exact Or.inr ⟨e1.trans e2, le_trans s2 s1⟩

instance rankLe_total : IsTotal MatchResult rankLe := by
  constructor
  intro a b
  rcases lt_trichotomy (dlKey a) (dlKey b) with h | h | h
  · exact Or.inl (Or.inl h)
  · rcases le_total b.score a.score with hs | hs
    · exact Or.inl (Or.inr ⟨h, hs⟩)
    · exact Or.inr (Or.inr ⟨h.symm, hs⟩)
  · exact Or.inr (Or.inl h)

/-- `GrantMatcher.match_all`: match every grant, keep the non-disqualified
results meeting the minimum score, and stable-sort by (deadline, -score). -/
def match_all (attrs : EligibilityAttrs) (today : ℤ) (grants : List Grant) : List MatchResult :=
  List.insertionSort rankLe
    ((grants.map (match_grant attrs today)).filter
      (fun r => !r.disqualified && decide (MIN_ELIGIBILITY_SCORE ≤ r.score)))

/-- The observable payload of a `MatchResult` apart from the echoed input
grant (used to compare results of matching two different grant values). -/
def resultData (r : MatchResult) : ℚ × List String × List String × Bool × String :=
  (r.score, r.reasons, r.warnings, r.disqualified, r.disqualification_reason)

def texasGrant : Grant := { eligible_locations := ["Texas"] }

def nonWomanAttrs : EligibilityAttrs :=
  { state := "CA", city := "Sacramento", country := "United States", employee_count := 3,
    annual_revenue := 100000, woman_owned := false, woman_owned_percentage := 0,
    minority_owned := true, minority_owned_percentage := 33.34, veteran_owned := false,
    naics_codes := ["541810", "541613", "541820", "561422"], certifications := [],
    years_in_business := 1 }

def womanOnlyGrant : Grant := { requires_woman_owned := true }

def zeroMinGrant : Grant := { amount_min := some 0, amount_max := some 50000 }

def upToGrant : Grant := { amount_max := some 75000 }

lemma min_clamp {c : ℚ} (hc : 0 ≤ c) : 0 ≤ min c 1 ∧ min c 1 ≤ 1 :=
  ⟨le_min hc zero_le_one, min_le_right _ _⟩

lemma score_location_bounds (g : Grant) :
    0 ≤ (score_location g).1 ∧ (score_location g).1 ≤ 1 := by
  unfold score_location
  dsimp only
  split_ifs <;> norm_num

lemma score_size_bounds (attrs : EligibilityAttrs) (g : Grant) :
    0 ≤ (score_size attrs g).1 ∧ (score_size attrs g).1 ≤ 1 := by
  unfold score_size
  dsimp only
  split_ifs <;> exact min_clamp (by norm_num)

lemma score_ownership_bounds (attrs : EligibilityAttrs) (g : Grant) :
    0 ≤ (score_ownership attrs g).1 ∧ (score_ownership attrs g).1 ≤ 1 := by
  unfold score_ownership
  dsimp only
  split_ifs <;> norm_num

lemma score_industry_bounds (attrs : EligibilityAttrs) (g : Grant) :
    0 ≤ (score_industry attrs g).1 ∧ (score_industry attrs g).1 ≤ 1 := by
  unfold score_industry
  dsimp only
  split
  · norm_num
  · split
    · norm_num
    · split
      · norm_num
      · split_ifs <;> norm_num

lemma score_certifications_bounds (attrs : EligibilityAttrs) (g : Grant) :
    0 ≤ (score_certifications attrs g).1 ∧ (score_certifications attrs g).1 ≤ 1 := by
  unfold score_certifications
  dsimp only
  split_ifs <;> norm_num

lemma score_deadline_bounds (today : ℤ) (g : Grant) :
    0 ≤ score_deadline today g ∧ score_deadline today g ≤ 1 := by
  unfold score_deadline
  split
  · norm_num
  · dsimp only
    split_ifs <;> norm_num

/-- C4: every MatchResult score lies in [0, 1]. -/
theorem match_grant_score_in_unit_interval (attrs : EligibilityAttrs) (today : ℤ) (g : Grant) :
    0 ≤ (match_grant attrs today g).score ∧ (match_grant attrs today g).score ≤ 1 := by
  unfold match_grant
  dsimp only
  split
  · norm_num
  · dsimp only
    obtain ⟨l0, l1⟩ := score_location_bounds g
    obtain ⟨s0, s1⟩ := score_size_bounds attrs g
    obtain ⟨o0, o1⟩ := score_ownership_bounds attrs g
    obtain ⟨i0, i1⟩ := score_industry_bounds attrs g
    obtain ⟨c0, c1⟩ := score_certifications_bounds attrs g
    obtain ⟨d0, d1⟩ := score_deadline_bounds today g
    rw [if_pos (by norm_num)]
    constructor
    · positivity
    · rw [div_le_one (by norm_num)]
      linarith

/-- C3: a grant whose deadline is strictly in the past is returned
disqualified with score 0, empty reasons and warnings, and the fixed
disqualification reason; no scoring dimension contributes. -/
theorem past_deadline_disqualified (attrs : EligibilityAttrs) (today : ℤ) (g : Grant) (d : ℤ)
    (hd : g.deadline = some d) (hlt : d < today) :
    match_grant attrs today g =
      { grant := g, score := 0, reasons := [], warnings := [], disqualified := true,
        disqualification_reason := "Deadline has passed" } := by
  have h1 : check_disqualifiers attrs today g = (true, "Deadline has passed") := by
    unfold check_disqualifiers
    rw [hd]
    have : d - today < 0 := by omega
    simp [this]
  unfold match_grant
  rw [h1]
  rfl

theorem past_deadline_disqualified_w :
    match_grant (getEligibilityAttributes 739000) 739000 { deadline := some 738999 } =
      { grant := { deadline := some 738999 }, score := 0, reasons := [], warnings := [],
        disqualified := true, disqualification_reason := "Deadline has passed" } :=
  past_deadline_disqualified (getEligibilityAttributes 739000) 739000
    { deadline := some 738999 } 738999 rfl (by omega)

/-- C1: the location disqualifier never fires: a grant restricted to Texas,
matched against the California profile, is not disqualified (the Python
condition tests each lowered location for membership in the lowered location
list itself, which always holds). -/
theorem texas_grant_not_disqualified :
    texasGrant.eligible_locations = ["Texas"] ∧
    texasGrant.deadline = none ∧
    check_disqualifiers (getEligibilityAttributes 739000) 739000 texasGrant = (false, "") ∧
    (match_grant (getEligibilityAttributes 739000) 739000 texasGrant).disqualified = false := by
  refine ⟨rfl, rfl, by decide, by decide⟩

/-- C2, counterexample: against a profile that is not woman-owned, a grant
that requires woman-owned status and has no other constraint gets the full
score 0.67, not 0.0 (only the ownership sub-score is zeroed). -/
theorem ownership_veto_score_not_zero :
    womanOnlyGrant.requires_woman_owned = true ∧
    nonWomanAttrs.woman_owned = false ∧
    (match_grant nonWomanAttrs 739000 womanOnlyGrant).disqualified = false ∧
    (match_grant nonWomanAttrs 739000 womanOnlyGrant).score = 0.67 ∧
    (match_grant nonWomanAttrs 739000 womanOnlyGrant).score ≠ 0 := by
  have hs : (match_grant nonWomanAttrs 739000 womanOnlyGrant).score = 0.67 := by
    norm_num [match_grant, check_disqualifiers, score_location, score_size, score_ownership,
      score_industry, score_certifications, score_deadline, nonWomanAttrs, womanOnlyGrant,
      truthyQ, truthyZ, min_def]
  refine ⟨rfl, rfl, by decide, hs, ?_⟩
  rw [hs]
  norm_num

/-- C2, amended: the ownership veto zeroes the ownership sub-score (with the
fixed reason) and, when no hard disqualifier fires, the result is not
disqualified and its overall score is the weighted sum of the remaining
dimensions with the ownership term zero. -/
theorem ownership_veto_amended (attrs : EligibilityAttrs) (today : ℤ) (g : Grant)
    (hw : attrs.woman_owned = false) (hg : g.requires_woman_owned = true)
    (hdq : (check_disqualifiers attrs today g).1 = false) :
    score_ownership attrs g = (0, ["Requires woman-owned status"]) ∧
    (match_grant attrs today g).disqualified = false ∧
    (match_grant attrs today g).score =
      ((score_location g).1 * 0.20 + (score_size attrs g).1 * 0.20 + 0 * 0.25 +
        (score_industry attrs g).1 * 0.15 + (score_certifications attrs g).1 * 0.10 +
        score_deadline today g * 0.10) / (0.20 + 0.20 + 0.25 + 0.15 + 0.10 + 0.10) := by
  have hown : score_ownership attrs g = (0, ["Requires woman-owned status"]) := by
    unfold score_ownership
    rw [hw, hg]
    rfl
  refine ⟨hown, ?_, ?_⟩
  · unfold match_grant
    dsimp only
    rw [hdq]
    rfl
  · unfold match_grant
    dsimp only
    rw [hdq]
    simp only [Bool.false_eq_true, if_false]
    rw [hown, if_pos (by norm_num : (0.20 + 0.20 + 0.25 + 0.15 + 0.10 + 0.10 : ℚ) > 0)]

theorem ownership_veto_amended_w :
    score_ownership nonWomanAttrs womanOnlyGrant = (0, ["Requires woman-owned status"]) ∧
    (match_grant nonWomanAttrs 739001 womanOnlyGrant).disqualified = false ∧
    (match_grant nonWomanAttrs 739001 womanOnlyGrant).score =
      ((score_location womanOnlyGrant).1 * 0.20 +
        (score_size nonWomanAttrs womanOnlyGrant).1 * 0.20 + 0 * 0.25 +
        (score_industry nonWomanAttrs womanOnlyGrant).1 * 0.15 +
        (score_certifications nonWomanAttrs womanOnlyGrant).1 * 0.10 +
        score_deadline 739001 womanOnlyGrant * 0.10) / (0.20 + 0.20 + 0.25 + 0.15 + 0.10 + 0.10) :=
  ownership_veto_amended nonWomanAttrs 739001 womanOnlyGrant rfl rfl (by decide)

lemma match_grant_grant (attrs : EligibilityAttrs) (today : ℤ) (g : Grant) :
    (match_grant attrs today g).grant = g := by
  unfold match_grant
  dsimp only
  split <;> rfl

lemma mem_match_all (attrs : EligibilityAttrs) (today : ℤ) (grants : List Grant)
    (r : MatchResult) (hr : r ∈ match_all attrs today grants) :
    match_grant attrs today r.grant = r ∧
    (!r.disqualified && decide (MIN_ELIGIBILITY_SCORE ≤ r.score)) = true := by
  unfold match_all at hr
  rw [List.mem_insertionSort] at hr
  obtain ⟨hmem, hp⟩ := List.mem_filter.mp hr
  obtain ⟨g, hg, hge⟩ := List.mem_map.mp hmem
  subst hge
  exact ⟨by rw [match_grant_grant], hp⟩

/-- C5: every result returned by match_all is not disqualified and meets the
minimum eligibility score. -/
theorem match_all_only_eligible (attrs : EligibilityAttrs) (today : ℤ) (grants : List Grant)
    (r : MatchResult) (hr : r ∈ match_all attrs today grants) :
    r.disqualified = false ∧ MIN_ELIGIBILITY_SCORE ≤ r.score := by
  have hp := (mem_match_all attrs today grants r hr).2
  rw [Bool.and_eq_true, Bool.not_eq_true', decide_eq_true_eq] at hp
  exact hp

/-- C6: the output of match_all is sorted by deadline ascending (missing
deadline treated as date.max, sorting last) with score descending as the
tie-break. -/
theorem match_all_sorted (attrs : EligibilityAttrs) (today : ℤ) (grants : List Grant) :
    (match_all attrs today grants).Sorted (fun a b =>
      dlKey a < dlKey b ∨ (dlKey a = dlKey b ∧ b.score ≤ a.score)) := by
  unfold match_all
  exact List.sorted_insertionSort rankLe _

/-- C7: match_all is idempotent: re-ranking the grants of an already-ranked
output (same profile, same today) returns the same list. -/
theorem match_all_idempotent (attrs : EligibilityAttrs) (today : ℤ) (grants : List Grant) :
    match_all attrs today ((match_all attrs today grants).map (fun r => r.grant)) =
      match_all attrs today grants := by
  have h1 : ((match_all attrs today grants).map (fun r => r.grant)).map
      (match_grant attrs today) = match_all attrs today grants := by
    rw [List.map_map]
    have he : ∀ r ∈ match_all attrs today grants,
        (match_grant attrs today ∘ fun r => r.grant) r = id r := fun r hr =>
      (mem_match_all attrs today grants r hr).1
    rw [List.map_congr_left he, List.map_id]
  have h2 : (match_all attrs today grants).filter
      (fun r => !r.disqualified && decide (MIN_ELIGIBILITY_SCORE ≤ r.score)) =
      match_all attrs today grants :=
    List.filter_eq_self.mpr (fun r hr => (mem_match_all attrs today grants r hr).2)
  have h3 : (match_all attrs today grants).Sorted rankLe := by
    unfold match_all
    exact List.sorted_insertionSort rankLe _
  have step1 : match_all attrs today ((match_all attrs today grants).map (fun r => r.grant)) =
      List.insertionSort rankLe
        ((((match_all attrs today grants).map (fun r => r.grant)).map
            (match_grant attrs today)).filter
          (fun r => !r.disqualified && decide (MIN_ELIGIBILITY_SCORE ≤ r.score))) := rfl
  rw [step1, h1, h2, h3.insertionSort_eq]

theorem match_all_only_eligible_w :
    (match_grant (getEligibilityAttributes 739000) 739000 { id := "g1" }).disqualified = false ∧
    MIN_ELIGIBILITY_SCORE ≤ (match_grant (getEligibilityAttributes 739000) 739000 { id := "g1" }).score := by
  have hs : (match_grant (getEligibilityAttributes 739000) 739000 { id := "g1" }).score = 0.845 := by
    norm_num [match_grant, check_disqualifiers, score_location, score_size, score_ownership,
      score_industry, score_certifications, score_deadline, getEligibilityAttributes,
      truthyQ, truthyZ, min_def]
  have hp : (!(match_grant (getEligibilityAttributes 739000) 739000 { id := "g1" }).disqualified
      && decide (MIN_ELIGIBILITY_SCORE ≤ (match_grant (getEligibilityAttributes 739000) 739000
        { id := "g1" }).score)) = true := by
    rw [hs]
    simp only [Bool.and_eq_true, Bool.not_eq_true', decide_eq_true_eq]
    exact ⟨by decide, by norm_num [MIN_ELIGIBILITY_SCORE]⟩
  exact match_all_only_eligible (getEligibilityAttributes 739000) 739000 [{ id := "g1" }]
    (match_grant (getEligibilityAttributes 739000) 739000 { id := "g1" })
    (by
      unfold match_all
      rw [List.mem_insertionSort]
      exact List.mem_filter.mpr ⟨List.mem_singleton.mpr rfl, hp⟩)

/-- C8: a grant with no constraints at all is not disqualified and scores
strictly above the 0.6 minimum (it scores 0.845 against the fixed profile). -/
theorem unconstrained_grant_beats_threshold (today : ℤ) (g : Grant)
    (h1 : g.eligible_locations = []) (h2 : g.eligible_industries = [])
    (h3 : g.required_certifications = []) (h4 : g.requires_woman_owned = false)
    (h5 : g.requires_minority_owned = false) (h6 : g.requires_veteran_owned = false)
    (h7 : g.max_revenue = none) (h8 : g.max_employees = none)
    (h9 : g.min_years_in_business = none) (h10 : g.deadline = none) :
    (match_grant (getEligibilityAttributes today) today g).disqualified = false ∧
    MIN_ELIGIBILITY_SCORE < (match_grant (getEligibilityAttributes today) today g).score := by
  have hs : (match_grant (getEligibilityAttributes today) today g).score = 0.845 := by
    norm_num [match_grant, check_disqualifiers, score_location, score_size, score_ownership,
      score_industry, score_certifications, score_deadline, getEligibilityAttributes,
      truthyQ, truthyZ, min_def, h1, h2, h3, h4, h5, h6, h7, h8, h9, h10]
  refine ⟨?_, ?_⟩
  · simp [match_grant, check_disqualifiers, h10, h3, h7, h8, h1, truthyQ, truthyZ]
  · rw [hs]
    norm_num [MIN_ELIGIBILITY_SCORE]

theorem unconstrained_grant_beats_threshold_w :
    (match_grant (getEligibilityAttributes 738900) 738900 { title := "w8" }).disqualified = false ∧
    MIN_ELIGIBILITY_SCORE <
      (match_grant (getEligibilityAttributes 738900) 738900 { title := "w8" }).score :=
  unconstrained_grant_beats_threshold 738900 { title := "w8" }
    rfl rfl rfl rfl rfl rfl rfl rfl rfl rfl

/-- C9, counterexample: with amount_min present but zero and amount_max
50000, amount_display is "Up to $50,000", not the range string the claim
prescribes for two present amounts (Python truthiness treats 0.0 as
absent). -/
theorem amount_display_zero_min :
    zeroMinGrant.amount_min = some 0 ∧ zeroMinGrant.amount_max = some 50000 ∧
    amount_display zeroMinGrant = "Up to $50,000" ∧
    amount_display zeroMinGrant ≠ "$0 - $50,000" := by
  have hr : round ((50000 : ℚ)) = 50000 := by norm_num [round_eq]
  have h1 : amount_display zeroMinGrant = "Up to " ++ fmtUSD 50000 := by
    unfold amount_display
    rfl
  have h2 : amount_display zeroMinGrant = "Up to $50,000" := by
    rw [h1]
    unfold fmtUSD
    rw [hr]
    decide
  refine ⟨rfl, rfl, h2, ?_⟩
  rw [h2]
  decide

/-- C9, amended: amount_display follows the precedence exact, range,
"Up to", "From", free-text description, "Amount varies" — with "present"
meaning present with a non-zero value (a present amount of 0 is treated as
absent, by Python truthiness). -/
theorem amount_display_precedence (g : Grant) :
    (truthyQ g.amount_min = true → truthyQ g.amount_max = true →
      g.amount_min.getD 0 = g.amount_max.getD 0 →
      amount_display g = fmtUSD (g.amount_min.getD 0)) ∧
    (truthyQ g.amount_min = true → truthyQ g.amount_max = true →
      g.amount_min.getD 0 ≠ g.amount_max.getD 0 →
      amount_display g = fmtUSD (g.amount_min.getD 0) ++ " - " ++ fmtUSD (g.amount_max.getD 0)) ∧
    (truthyQ g.amount_min = false → truthyQ g.amount_max = true →
      amount_display g = "Up to " ++ fmtUSD (g.amount_max.getD 0)) ∧
    (truthyQ g.amount_min = true → truthyQ g.amount_max = false →
      amount_display g = "From " ++ fmtUSD (g.amount_min.getD 0)) ∧
    (truthyQ g.amount_min = false → truthyQ g.amount_max = false →
      g.amount_description ≠ "" → amount_display g = g.amount_description) ∧
    (truthyQ g.amount_min = false → truthyQ g.amount_max = false →
      g.amount_description = "" → amount_display g = "Amount varies") := by
  unfold amount_display
  refine ⟨?_, ?_, ?_, ?_, ?_, ?_⟩
  · intro hmn hmx heq
    simp [hmn, hmx, heq]
  · intro hmn hmx hne
    simp [hmn, hmx, hne]
  · intro hmn hmx
    simp [hmn, hmx]
  · intro hmn hmx
    simp [hmn, hmx]
  · intro hmn hmx hd
    have hde : g.amount_description.data.isEmpty = false := by
      rcases hde2 : g.amount_description.data.isEmpty with _ | _
      · rfl
      · exfalso
        apply hd
        have : g.amount_description.data = [] := by
          simpa [List.isEmpty_iff] using hde2
        exact String.ext this
    simp [hmn, hmx, hde]
  · intro hmn hmx hd
    simp [hmn, hmx, hd]

theorem amount_display_precedence_w :
    amount_display upToGrant = "Up to " ++ fmtUSD (upToGrant.amount_max.getD 0) :=
  (amount_display_precedence upToGrant).2.2.1 rfl rfl

lemma resultData_match_grant (attrs : EligibilityAttrs) (today : ℤ) (g : Grant) :
    resultData (match_grant attrs today g) =
      if (check_disqualifiers attrs today g).1 = true then
        (0, [], [], true, (check_disqualifiers attrs today g).2)
      else
        ((if (0.20 + 0.20 + 0.25 + 0.15 + 0.10 + 0.10 : ℚ) > 0 then
            ((score_location g).1 * 0.20 + (score_size attrs g).1 * 0.20 +
              (score_ownership attrs g).1 * 0.25 + (score_industry attrs g).1 * 0.15 +
              (score_certifications attrs g).1 * 0.10 + score_deadline today g * 0.10) /
              (0.20 + 0.20 + 0.25 + 0.15 + 0.10 + 0.10)
          else 0),
         (score_location g).2 ++ (score_size attrs g).2.1 ++ (score_ownership attrs g).2 ++
           (score_industry attrs g).2 ++ (score_certifications attrs g).2.1 ++
           (if score_deadline today g > 0.5 then
             ["Deadline in " ++ toString ((days_until_deadline today g).getD 0) ++ " days"]
           else []),
         (score_size attrs g).2.2 ++ (score_certifications attrs g).2.2,
         false, "") := by
  unfold match_grant resultData
  dsimp only
  split <;> rfl

/-- C10: a max_revenue of 0 or a max_employees of 0 is treated exactly like
an absent ceiling (Python truthiness), even though the profile's revenue and
employee count are positive: the observable match output is identical to the
output for the same grant with that ceiling removed. -/
theorem zero_ceilings_ignored (today : ℤ) (g : Grant) :
    (0 : ℚ) < (getEligibilityAttributes today).annual_revenue ∧
    (0 : ℤ) < (getEligibilityAttributes today).employee_count ∧
    resultData (match_grant (getEligibilityAttributes today) today
        { g with max_revenue := some 0 }) =
      resultData (match_grant (getEligibilityAttributes today) today
        { g with max_revenue := none }) ∧
    resultData (match_grant (getEligibilityAttributes today) today
        { g with max_employees := some 0 }) =
      resultData (match_grant (getEligibilityAttributes today) today
        { g with max_employees := none }) := by
  refine ⟨by norm_num [getEligibilityAttributes], by norm_num [getEligibilityAttributes], ?_, ?_⟩
  · rw [resultData_match_grant, resultData_match_grant]
    rfl
  · rw [resultData_match_grant, resultData_match_grant]
    rfl
